import Mathlib

set_option linter.unusedVariables false

/-!
Shallow embedding of `rpy2/rinterface_lib/embedded.py`.

The module keeps two pieces of mutable global state that the claims are
about: the bit-field `rpy2_embeddedR_isinitialized` and the option tuple
`_options`.  We package them in a structure `EmbState` and embed each
Python function as a pure function over that state.  Calls into the native
R library (`rlib.Rf_initialize_R`, `rlib.R_dot_Last`, ...) have no effect
on this state; we record them in an event trace (`REvent`) so that claims
about "which native entry points run, and in which order" can be stated.
Python exceptions are modelled with `Except PyErr`.  `os.getpid()` and the
`R_SESSION_INITIALIZED` environment variable are modelled as explicit
parameters (`pid`, `r_session_init`).
-/

namespace Rpy2Embedded

instance {ε α : Type} [DecidableEq ε] [DecidableEq α] : DecidableEq (Except ε α) := fun x y =>
  match x, y with
  | .error e, .error f =>
    if h : e = f then .isTrue (by rw [h]) else .isFalse (by simp [h])
  | .error _, .ok _ => .isFalse (by simp)
  | .ok _, .error _ => .isFalse (by simp)
  | .ok a, .ok b =>
    if h : a = b then .isTrue (by rw [h]) else .isFalse (by simp [h])

/-- A Python value as it occurs in this module: the module only ever
stores `int`s (the pid) and `str`s in the places the claims touch. -/
inductive PyVal where
  | int (n : Int)
  | str (s : String)
deriving DecidableEq, Repr

/-- Python `str(v)` for the values above. -/
def PyVal.pyStr : PyVal → String
  | .int n => toString n
  | .str s => s

/-- `True` exactly for Python `str` values; used by the `assert
isinstance(x, str)` loop in `set_initoptions`. -/
def PyVal.isStr : PyVal → Bool
  | .int _ => false
  | .str _ => true

/-- The Python exceptions this module can raise. -/
inductive PyErr where
  | runtimeError
  | assertionError
  | unboundLocalError
  | keyError
deriving DecidableEq, Repr

/-- `class RPY_R_Status(enum.Enum)` : the status bits. -/
def RPY_R_Status.INITIALIZED : Nat := 0x01

/-- `BUSY = 0x02` in `RPY_R_Status`. -/
def RPY_R_Status.BUSY : Nat := 0x02

/-- `ENDED = 0x04` in `RPY_R_Status`. -/
def RPY_R_Status.ENDED : Nat := 0x04

/-- The module-level mutable state:
`rpy2_embeddedR_isinitialized = 0x00` and
`_options = ('rpy2', '--quiet', '--no-save')`. -/
structure EmbState where
  rpy2_embeddedR_isinitialized : Nat
  options : List PyVal
deriving DecidableEq, Repr

/-- The state at module import time. -/
def initialEmbState : EmbState :=
  { rpy2_embeddedR_isinitialized := 0x00
    options := [PyVal.str "rpy2", PyVal.str "--quiet", PyVal.str "--no-save"] }

/-- `isinitialized()`: `bool(rpy2_embeddedR_isinitialized & INITIALIZED)`. -/
def isinitialized (s : EmbState) : Bool :=
  s.rpy2_embeddedR_isinitialized &&& RPY_R_Status.INITIALIZED != 0

/-- `setinitialized()`: assigns (not ORs) `INITIALIZED` into the global. -/
def setinitialized (s : EmbState) : EmbState :=
  { s with rpy2_embeddedR_isinitialized := RPY_R_Status.INITIALIZED }

/-- `isready()`: `bool(rpy2_embeddedR_isinitialized == INITIALIZED.value)`. -/
def isready (s : EmbState) : Bool :=
  s.rpy2_embeddedR_isinitialized == RPY_R_Status.INITIALIZED

/-- `set_initoptions(options)`: raises `RuntimeError` when the status word
is truthy, asserts every element is a `str`, then stores the tuple. -/
def set_initoptions (options : List PyVal) (s : EmbState) : Except PyErr EmbState :=
  if s.rpy2_embeddedR_isinitialized ≠ 0 then
    .error PyErr.runtimeError
  else if options.all PyVal.isStr then
    .ok { s with options := options }
  else
    .error PyErr.assertionError

/-- `get_initoptions()`: returns `_options`. -/
def get_initoptions (s : EmbState) : List PyVal :=
  s.options

/-- The value installed into a native callback slot: either `ffi.NULL` or
a function looked up on the `callbacks` module by name. -/
inductive CbVal where
  | NULL
  | impl (sym : String)
deriving DecidableEq, Repr

/-- `_setcallback(rlib, rlib_symbol, callbacks, callback_symbol)`:
`setattr(rlib, rlib_symbol, ffi.NULL if callback_symbol is None else
getattr(callbacks, callback_symbol))`.  `rlib` is modelled as a map from
slot names to installed values. -/
def _setcallback (rlib : String → CbVal) (rlib_symbol : String)
    (cbs : String → CbVal) (callback_symbol : Option String) : String → CbVal :=
  fun slot =>
    if slot = rlib_symbol then
      match callback_symbol with
      | none => CbVal.NULL
      | some sym => cbs sym
    else rlib slot

/-- `CALLBACK_INIT_PAIRS`: the static 11-entry table of
(native slot, callbacks-module symbol or None) pairs. -/
def CALLBACK_INIT_PAIRS : List (String × Option String) :=
  [("ptr_R_WriteConsoleEx", some "_consolewrite_ex"),
   ("ptr_R_WriteConsole", none),
   ("ptr_R_ShowMessage", some "_showmessage"),
   ("ptr_R_ReadConsole", some "_consoleread"),
   ("ptr_R_FlushConsole", some "_consoleflush"),
   ("ptr_R_ResetConsole", some "_consolereset"),
   ("ptr_R_ChooseFile", some "_choosefile"),
   ("ptr_R_ShowFiles", some "_showfiles"),
   ("ptr_R_CleanUp", some "_cleanup"),
   ("ptr_R_ProcessEvents", some "_processevents"),
   ("ptr_R_Busy", some "_busy")]

/-- Native entry points invoked by `_initr` and `endr`, recorded as an
event trace. -/
inductive REvent where
  | Rf_initialize_R
  | setcallback (rlib_symbol : String) (callback_symbol : Option String)
  | setup_Rmainloop
  | R_dot_Last
  | R_RunExitFinalizers
  | Rf_KillAllDevices
  | R_CleanTempDir
  | R_gc
  | Rf_endEmbeddedR (fatal : Int)
deriving DecidableEq, Repr

/-- `_initr(interactive, _want_setcallbacks)`: if `isinitialized()` the
function body is a bare `return` (Python `None`); otherwise it calls
`Rf_initialize_R`, `setinitialized()`, binds each callback pair of
`CALLBACK_INIT_PAIRS` when `_want_setcallbacks`, calls
`setup_Rmainloop()`, and returns the `int` status from the bootstrap.
`bootstrap_status` stands for the value `Rf_initialize_R` returns, and
the returned `Option Int` models Python `int`-or-`None`. -/
def _initr (interactive : Bool) (_want_setcallbacks : Bool) (bootstrap_status : Int)
    (s : EmbState) : Option Int × EmbState × List REvent :=
  if isinitialized s then
    (none, s, [])
  else
    let s1 := setinitialized s
    let cb_events :=
      if _want_setcallbacks then
        CALLBACK_INIT_PAIRS.map fun p => REvent.setcallback p.1 p.2
      else []
    (some bootstrap_status, s1,
      REvent.Rf_initialize_R :: (cb_events ++ [REvent.setup_Rmainloop]))

/-- `endr(fatal)`: returns at once when the `ENDED` bit is already set;
otherwise runs the six native exit hooks in order and XORs the `ENDED`
bit into the status word. -/
def endr (fatal : Int) (s : EmbState) : EmbState × List REvent :=
  if s.rpy2_embeddedR_isinitialized &&& RPY_R_Status.ENDED != 0 then
    (s, [])
  else
    ({ s with rpy2_embeddedR_isinitialized :=
        s.rpy2_embeddedR_isinitialized ^^^ RPY_R_Status.ENDED },
     [REvent.R_dot_Last, REvent.R_RunExitFinalizers, REvent.Rf_KillAllDevices,
      REvent.R_CleanTempDir, REvent.R_gc, REvent.Rf_endEmbeddedR fatal])

/-- Spec-side helper naming the `ENDED` bit test of `endr`. -/
def endedFlag (s : EmbState) : Bool :=
  s.rpy2_embeddedR_isinitialized &&& RPY_R_Status.ENDED != 0

/-- Python `s.split(sep)` on a single-character separator, over the
character list: `splitChars sep cs acc` scans `cs` with `acc` holding the
(reversed) characters of the current field.  Structural recursion keeps
it kernel-reducible, unlike `String.splitOn`. -/
def splitChars (sep : Char) : List Char → List Char → List (List Char)
  | [], acc => [acc.reverse]
  | c :: cs, acc =>
    if c = sep then acc.reverse :: splitChars sep cs []
    else splitChars sep cs (c :: acc)

/-- Python `s.split(sep)` for a one-character separator (so
`"".split(sep) = ['']`, `"a:".split(':') = ['a', '']`). -/
def pySplit (s : String) (sep : Char) : List String :=
  (splitChars sep s.toList []).map fun l => String.mk l

/-- `s.split(sep, 1)` scanner: splits at the first occurrence of `sep`,
`none` when `sep` does not occur. -/
def split1Chars (sep : Char) : List Char → List Char → Option (List Char × List Char)
  | [], _ => none
  | c :: cs, acc =>
    if c = sep then some (acc.reverse, cs)
    else split1Chars sep cs (c :: acc)

/-- Python `item.split('=', 1)` as used in the parsing loop: `none`
models the `ValueError` of unpacking a list without an `'='`. -/
def splitEq1 (item : String) : Option (String × String) :=
  (split1Chars '=' item.toList []).map fun p => (String.mk p.1, String.mk p.2)

/-- Python-dict assignment `d[k] = v`: updates in place when the key is
present (keeping insertion order), appends otherwise. -/
def dictSet (d : List (String × PyVal)) (k : String) (v : PyVal) :
    List (String × PyVal) :=
  if d.any fun p => p.1 = k then
    d.map fun p => if p.1 = k then (k, v) else p
  else d ++ [(k, v)]

/-- Python `d.get(k)` (and `d[k]` once the key is known present). -/
def dictGet? (d : List (String × PyVal)) (k : String) : Option PyVal :=
  (d.find? fun p => p.1 = k).map fun p => p.2

/-- The observable outcome of `get_r_session_status`: the mapping it
returns, and the items it passed to `warnings.warn`. -/
structure SessionStatus where
  mapping : List (String × PyVal)
  warned : List String
deriving DecidableEq, Repr

/-- The `for item in r_session_init.split(':')` loop.  `kv` carries the
Python locals `key, value`, which survive from one iteration to the next
(`none` = still unbound).  On each item the code tries
`key, value = item.split('=', 1)`, warns on `ValueError`, and then — in
every case, because the assignment sits after the `try`/`except` — runs
`res[key] = value`, which raises `UnboundLocalError` when no item has
parsed yet. -/
def sessionLoop (items : List String) (kv : Option (String × String))
    (res : List (String × PyVal)) (warned : List String) :
    Except PyErr SessionStatus :=
  match items with
  | [] => .ok { mapping := res, warned := warned }
  | item :: rest =>
    match splitEq1 item with
    | some p =>
      sessionLoop rest (some p) (dictSet res p.1 (PyVal.str p.2)) warned
    | none =>
      match kv with
      | none => .error PyErr.unboundLocalError
      | some p =>
        sessionLoop rest (some p) (dictSet res p.1 (PyVal.str p.2))
          (warned ++ [item])

/-- `get_r_session_status(r_session_init)`: starts the mapping at
`{'current_pid': os.getpid()}`, and when the marker string is truthy
(present and non-empty) folds `sessionLoop` over its `':'`-separated
items.  `pid` models `os.getpid()`; `r_session_init = none` models the
environment variable being absent. -/
def get_r_session_status (pid : Int) (r_session_init : Option String) :
    Except PyErr SessionStatus :=
  let res := [("current_pid", PyVal.int pid)]
  match r_session_init with
  | none => .ok { mapping := res, warned := [] }
  | some m =>
    if m = "" then .ok { mapping := res, warned := [] }
    else sessionLoop (pySplit m ':') none res []

/-- `is_r_externally_initialized()`:
`str(r_status['current_pid']) == str(r_status.get('PID'))`, where
`str(None) = "None"` for a missing `PID` key. -/
def is_r_externally_initialized (pid : Int) (r_session_init : Option String) :
    Except PyErr Bool :=
  match get_r_session_status pid r_session_init with
  | .error e => .error e
  | .ok r =>
    match dictGet? r.mapping "current_pid" with
    | none => .error PyErr.keyError
    | some v =>
      .ok (v.pyStr == (match dictGet? r.mapping "PID" with
                       | none => "None"
                       | some w => w.pyStr))

/-- The exported operations that touch the status/options state, for
stating reachability claims over operation sequences. -/
inductive ROp where
  | initr (interactive : Bool) (want_setcallbacks : Bool) (bootstrap_status : Int)
  | endrOp (fatal : Int)
  | setinitializedOp
  | set_initoptionsOp (options : List PyVal)
deriving DecidableEq, Repr

/-- The state transition of one exported operation (a raised exception
leaves the state unchanged). -/
def stepOp (op : ROp) (s : EmbState) : EmbState :=
  match op with
  | .initr i w b => (_initr i w b s).2.1
  | .endrOp f => (endr f s).1
  | .setinitializedOp => setinitialized s
  | .set_initoptionsOp o =>
    match set_initoptions o s with
    | .ok s2 => s2
    | .error _ => s

/-- Run a sequence of exported operations from a state. -/
def runOps : List ROp → EmbState → EmbState
  | [], s => s
  | op :: rest, s => runOps rest (stepOp op s)

/-- A sequence is `endr`-guarded from `s` when every `endr` in it is
applied to a state with the `INITIALIZED` bit set. -/
def endrGuarded : List ROp → EmbState → Bool
  | [], _ => true
  | op :: rest, s =>
    (match op with
     | ROp.endrOp _ => isinitialized s
     | _ => true) && endrGuarded rest (stepOp op s)

/-- How many times an event occurs in a trace. -/
def countREvent (e : REvent) (tr : List REvent) : Nat :=
  tr.countP fun x => x = e

/-- Python `str` of an optional string, `str(None) = "None"`. -/
def optStr : Option String → String
  | none => "None"
  | some s => s

/-- Spec-side reading of "the marker's `k` field": the value of the last
well-formed `key=value` segment of the marker whose key is `k`. -/
def markerFieldSpec (m : String) (k : String) : Option String :=
  (((pySplit m ':').filterMap splitEq1).reverse.find? fun p => p.1 = k).map
    fun p => p.2

end Rpy2Embedded

namespace Rpy2Embedded

theorem and_one_xor_ended (x : Nat) : (x ^^^ 4) &&& 1 = x &&& 1 := by
  rw [Nat.and_xor_distrib_right]; simp

theorem isinitialized_xor_ended (s : EmbState) :
    isinitialized { s with rpy2_embeddedR_isinitialized :=
      s.rpy2_embeddedR_isinitialized ^^^ RPY_R_Status.ENDED } = isinitialized s := by
  dsimp only [isinitialized, RPY_R_Status.ENDED, RPY_R_Status.INITIALIZED]
  rw [and_one_xor_ended]

theorem isinitialized_endr (f : Int) (s : EmbState) :
    isinitialized (endr f s).1 = isinitialized s := by
  unfold endr
  by_cases h : s.rpy2_embeddedR_isinitialized &&& RPY_R_Status.ENDED != 0
  · simp [h]
  · simp [h, isinitialized_xor_ended]

theorem isinitialized_setinitialized (s : EmbState) :
    isinitialized (setinitialized s) = true := by
  simp [isinitialized, setinitialized, RPY_R_Status.INITIALIZED]

theorem endedFlag_setinitialized (s : EmbState) :
    endedFlag (setinitialized s) = false := by
  simp [endedFlag, setinitialized, RPY_R_Status.INITIALIZED, RPY_R_Status.ENDED]

theorem set_initoptions_status (o : List PyVal) (s s2 : EmbState)
    (h : set_initoptions o s = .ok s2) :
    s2.rpy2_embeddedR_isinitialized = s.rpy2_embeddedR_isinitialized := by
  unfold set_initoptions at h
  split at h
  · cases h
  · split at h
    · cases h; rfl
    · cases h

theorem init_mono_step (op : ROp) (s : EmbState) (h : isinitialized s = true) :
    isinitialized (stepOp op s) = true := by
  cases op with
  | initr i w b => simp [stepOp, _initr, h]
  | endrOp f =>
    simp only [stepOp]
    rw [isinitialized_endr]; exact h
  | setinitializedOp => exact isinitialized_setinitialized s
  | set_initoptionsOp o =>
    simp only [stepOp]
    cases hs : set_initoptions o s with
    | error e => exact h
    | ok s2 =>
      have h2 := set_initoptions_status o s s2 hs
      simpa [isinitialized, h2] using h

theorem init_mono_run (ops : List ROp) (s : EmbState) (h : isinitialized s = true) :
    isinitialized (runOps ops s) = true := by
  induction ops generalizing s with
  | nil => exact h
  | cons op rest ih => exact ih _ (init_mono_step op s h)

end Rpy2Embedded

namespace Rpy2Embedded

theorem endedFlag_set_initoptions (o : List PyVal) (s s2 : EmbState)
    (h : set_initoptions o s = .ok s2) : endedFlag s2 = endedFlag s := by
  simp [endedFlag, set_initoptions_status o s s2 h]

theorem endedFlag_endr (f : Int) (s : EmbState) (h : endedFlag s = false) :
    endedFlag (endr f s).1 = true := by
  have h0 : s.rpy2_embeddedR_isinitialized &&& 4 = 0 := by
    simpa [endedFlag, RPY_R_Status.ENDED] using h
  unfold endr
  rw [if_neg (by simp [RPY_R_Status.ENDED, h0])]
  simp [endedFlag, RPY_R_Status.ENDED, Nat.and_xor_distrib_right, h0]

theorem endrGuarded_inv (ops : List ROp) (s : EmbState)
    (hg : endrGuarded ops s = true)
    (hinv : endedFlag s = true → isinitialized s = true) :
    endedFlag (runOps ops s) = true → isinitialized (runOps ops s) = true := by
  induction ops generalizing s with
  | nil => exact hinv
  | cons op rest ih =>
    simp only [endrGuarded, Bool.and_eq_true] at hg
    refine ih (stepOp op s) hg.2 ?_
    cases op with
    | initr i w b =>
      by_cases h : isinitialized s
      · simp [stepOp, _initr, h]
      · intro hend
        have : isinitialized (stepOp (ROp.initr i w b) s) = true := by
          simp [stepOp, _initr, h, isinitialized_setinitialized]
        exact this
    | endrOp f =>
      intro _
      simp only [stepOp]
      rw [isinitialized_endr]
      exact hg.1
    | setinitializedOp =>
      intro _
      exact isinitialized_setinitialized s
    | set_initoptionsOp o =>
      simp only [stepOp]
      cases hs : set_initoptions o s with
      | error e => exact hinv
      | ok s2 =>
        rw [endedFlag_set_initoptions o s s2 hs]
        intro hend
        have h2 := set_initoptions_status o s s2 hs
        simpa [isinitialized, h2] using hinv hend

end Rpy2Embedded

namespace Rpy2Embedded

/-- C1: the claim says a marker segment without an `=` never raises, is skipped
with a non-fatal warning, and does not stop other segments from being parsed.
The code instead raises `UnboundLocalError` when the malformed segment comes
first, because `res[key] = value` runs outside the `try` block with `key` and
`value` still unbound; when a well-formed segment precedes it, the malformed
segment is indeed skipped with a warning and every well-formed segment is
parsed into the mapping. -/
theorem c1_session_status_first_malformed_raises :
    get_r_session_status 5 (some "noequals") = .error PyErr.unboundLocalError ∧
    get_r_session_status 5 (some "a=1:noequals:b=2") =
      .ok { mapping := [("current_pid", PyVal.int 5),
                        ("a", PyVal.str "1"), ("b", PyVal.str "2")],
            warned := ["noequals"] } := by
  exact ⟨by decide, by decide⟩

/-- C3 counterexample: running shutdown alone from the fresh state yields a
state whose `ENDED` bit is set while its `INITIALIZED` bit is clear, so a
state with `Ended` set is reachable from a state without `Initialized`. -/
theorem c3_ended_without_initialized :
    endedFlag (runOps [ROp.endrOp 0] initialEmbState) = true ∧
    isinitialized (runOps [ROp.endrOp 0] initialEmbState) = false := by
  decide

/-- C3 amended: the `INITIALIZED` bit, once set, is never cleared by any
operation (hence it is set at most once per process lifetime); and in every
operation sequence from the fresh state in which shutdown is only invoked on
initialized states, any reached state with the `ENDED` bit set also has the
`INITIALIZED` bit set. -/
theorem c3_status_invariants :
    (∀ (ops : List ROp) (s : EmbState), isinitialized s = true →
       isinitialized (runOps ops s) = true) ∧
    (∀ ops : List ROp, endrGuarded ops initialEmbState = true →
       endedFlag (runOps ops initialEmbState) = true →
       isinitialized (runOps ops initialEmbState) = true) := by
  refine ⟨init_mono_run, ?_⟩
  intro ops hg
  exact endrGuarded_inv ops initialEmbState hg (by decide)

/-- Witness for C3 on concrete operation sequences. -/
theorem c3_status_invariants_witness :
    isinitialized (runOps [ROp.endrOp 0]
      { rpy2_embeddedR_isinitialized := 1, options := [] }) = true ∧
    isinitialized (runOps [ROp.initr true true 0, ROp.endrOp 0] initialEmbState) = true :=
  ⟨c3_status_invariants.1 [ROp.endrOp 0] _ (by decide),
   c3_status_invariants.2 [ROp.initr true true 0, ROp.endrOp 0] (by decide) (by decide)⟩

/-- C4 counterexample: in the state reached by shutting down the fresh state
(status word holds only the `ENDED` bit), `set_initoptions` raises the state
error although `isinitialized()` is false: the guard tests truthiness of the
whole status word, not the `INITIALIZED` bit. -/
theorem c4_raises_when_not_initialized :
    set_initoptions [PyVal.str "x"] (endr 0 initialEmbState).1 =
      .error PyErr.runtimeError ∧
    isinitialized (endr 0 initialEmbState).1 = false := by
  decide

/-- C4 amended: `set_initoptions` raises the state error iff the status word is
nonzero (which coincides with `isinitialized()` whenever shutdown follows
initialization); when it does not raise, every element is validated to be a
string (`AssertionError` otherwise) and the stored option vector is replaced
by the given sequence, which `get_initoptions` then returns exactly. -/
theorem c4_set_initoptions_behaviour (options : List PyVal) (s : EmbState) :
    (set_initoptions options s = .error PyErr.runtimeError ↔
      s.rpy2_embeddedR_isinitialized ≠ 0) ∧
    (s.rpy2_embeddedR_isinitialized = 0 → options.all PyVal.isStr = true →
      set_initoptions options s = .ok { s with options := options } ∧
      get_initoptions { s with options := options } = options) ∧
    (s.rpy2_embeddedR_isinitialized = 0 → options.all PyVal.isStr = false →
      set_initoptions options s = .error PyErr.assertionError) := by
  unfold set_initoptions get_initoptions
  by_cases h : s.rpy2_embeddedR_isinitialized = 0 <;>
    by_cases h2 : options.all PyVal.isStr <;>
      simp [h, h2]

/-- Witness for C4 on the fresh state. -/
theorem c4_set_initoptions_behaviour_witness :
    set_initoptions [PyVal.str "a"] initialEmbState =
      .ok { initialEmbState with options := [PyVal.str "a"] } ∧
    get_initoptions { initialEmbState with options := [PyVal.str "a"] } =
      [PyVal.str "a"] :=
  (c4_set_initoptions_behaviour [PyVal.str "a"] initialEmbState).2.1
    (by decide) (by decide)

/-- C9: `_initr` returns `None` rather than an integer status when
`isinitialized()` is already true, while a first call returns the bootstrap
entry point's integer status. -/
theorem c9_initr_returns_none_when_initialized (i w : Bool) (st : Int) (s : EmbState) :
    (isinitialized s = true → (_initr i w st s).1 = none) ∧
    (isinitialized s = false → (_initr i w st s).1 = some st) := by
  constructor <;> intro h <;> simp [_initr, h]

/-- Witness for C9 at an initialized and at the fresh state. -/
theorem c9_initr_returns_none_when_initialized_witness :
    (_initr true true 7 { rpy2_embeddedR_isinitialized := 1, options := [] }).1 = none ∧
    (_initr true true 7 initialEmbState).1 = some 7 :=
  ⟨(c9_initr_returns_none_when_initialized true true 7 _).1 (by decide),
   (c9_initr_returns_none_when_initialized true true 7 initialEmbState).2 (by decide)⟩

/-- C10: no exported operation clears the `INITIALIZED` bit once it is set;
after a successful `endr` on a ready state the status word becomes
`INITIALIZED ||| ENDED`, so `isinitialized()` still returns true while
`isready()` returns false. -/
theorem c10_initialized_bit_is_never_cleared (s : EmbState) :
    (∀ op : ROp, isinitialized s = true → isinitialized (stepOp op s) = true) ∧
    (∀ fatal : Int, isready s = true →
       (endr fatal s).1.rpy2_embeddedR_isinitialized =
         (RPY_R_Status.INITIALIZED ||| RPY_R_Status.ENDED) ∧
       isinitialized (endr fatal s).1 = true ∧
       isready (endr fatal s).1 = false) := by
  constructor
  · intro op h
    exact init_mono_step op s h
  · intro fatal h
    have h1 : s.rpy2_embeddedR_isinitialized = 1 := by
      simpa [isready, RPY_R_Status.INITIALIZED] using h
    unfold endr
    rw [if_neg (by simp [RPY_R_Status.ENDED, h1])]
    simp [isinitialized, isready, RPY_R_Status.INITIALIZED, RPY_R_Status.ENDED, h1]

/-- Witness for C10 at a ready state. -/
theorem c10_initialized_bit_is_never_cleared_witness :
    isinitialized (stepOp (ROp.endrOp 0)
      { rpy2_embeddedR_isinitialized := 1, options := [] }) = true ∧
    (endr 0 { rpy2_embeddedR_isinitialized := 1, options := [] }).1.rpy2_embeddedR_isinitialized =
      (RPY_R_Status.INITIALIZED ||| RPY_R_Status.ENDED) :=
  ⟨(c10_initialized_bit_is_never_cleared _).1 (ROp.endrOp 0) (by decide),
   ((c10_initialized_bit_is_never_cleared _).2 0 (by decide)).1⟩

end Rpy2Embedded

namespace Rpy2Embedded

theorem endr_noop_when_ended (f : Int) (s : EmbState) (h : endedFlag s = true) :
    endr f s = (s, []) := by
  unfold endr
  rw [if_pos (by simpa [endedFlag] using h)]

theorem endr_runs (f : Int) (s : EmbState) (h : endedFlag s = false) :
    endr f s =
      ({ s with rpy2_embeddedR_isinitialized :=
           s.rpy2_embeddedR_isinitialized ^^^ RPY_R_Status.ENDED },
       [REvent.R_dot_Last, REvent.R_RunExitFinalizers, REvent.Rf_KillAllDevices,
        REvent.R_CleanTempDir, REvent.R_gc, REvent.Rf_endEmbeddedR f]) := by
  have h0 : s.rpy2_embeddedR_isinitialized &&& 4 = 0 := by
    simpa [endedFlag, RPY_R_Status.ENDED] using h
  unfold endr
  rw [if_neg (by simp [RPY_R_Status.ENDED, h0])]

theorem initr_noop (i w : Bool) (st : Int) (s : EmbState)
    (h : isinitialized s = true) : _initr i w st s = (none, s, []) := by
  unfold _initr
  rw [if_pos h]

theorem initr_runs (i w : Bool) (st : Int) (s : EmbState)
    (h : isinitialized s = false) :
    _initr i w st s =
      (some st, setinitialized s,
       REvent.Rf_initialize_R ::
         ((if w then CALLBACK_INIT_PAIRS.map fun p => REvent.setcallback p.1 p.2
           else []) ++ [REvent.setup_Rmainloop])) := by
  unfold _initr
  rw [if_neg (by simp [h])]

/-- C5: from any not-yet-initialized state (as every process starts), calling
`_initr` twice invokes `Rf_initialize_R` exactly once across both calls; the
second call observes `isinitialized()` true, returns `None`, and performs no
bootstrap, callback binding, or main-loop setup. -/
theorem c5_initr_bootstrap_once (w : Bool) (st1 st2 : Int) (s : EmbState)
    (h : isinitialized s = false) :
    countREvent REvent.Rf_initialize_R
      ((_initr true w st1 s).2.2 ++
        (_initr true w st2 (_initr true w st1 s).2.1).2.2) = 1 ∧
    isinitialized (_initr true w st1 s).2.1 = true ∧
    (_initr true w st2 (_initr true w st1 s).2.1).1 = none ∧
    (_initr true w st2 (_initr true w st1 s).2.1).2.2 = [] := by
  have r1 := initr_runs true w st1 s h
  have h2 : isinitialized (_initr true w st1 s).2.1 = true := by
    rw [r1]
    exact isinitialized_setinitialized s
  have r2 := initr_noop true w st2 (_initr true w st1 s).2.1 h2
  have e1 : (_initr true w st1 s).2.2 =
      REvent.Rf_initialize_R ::
        ((if w then CALLBACK_INIT_PAIRS.map fun p => REvent.setcallback p.1 p.2
          else []) ++ [REvent.setup_Rmainloop]) := by
    rw [r1]
  have e2 : (_initr true w st2 (_initr true w st1 s).2.1).2.2 = [] := by
    rw [r2]
  refine ⟨?_, h2, by rw [r2], e2⟩
  rw [e2, e1]
  cases w <;> decide

/-- Witness for C5 at the fresh state. -/
theorem c5_initr_bootstrap_once_witness :
    countREvent REvent.Rf_initialize_R
      ((_initr true true 0 initialEmbState).2.2 ++
        (_initr true true 0 (_initr true true 0 initialEmbState).2.1).2.2) = 1 ∧
    isinitialized (_initr true true 0 initialEmbState).2.1 = true ∧
    (_initr true true 0 (_initr true true 0 initialEmbState).2.1).1 = none ∧
    (_initr true true 0 (_initr true true 0 initialEmbState).2.1).2.2 = [] :=
  c5_initr_bootstrap_once true 0 0 initialEmbState (by decide)

/-- C6: from any state whose `ENDED` bit is clear, `endr` runs the native exit
hooks exactly once and in the fixed order `R_dot_Last`, `R_RunExitFinalizers`,
`Rf_KillAllDevices`, `R_CleanTempDir`, `R_gc`, `Rf_endEmbeddedR fatal`; a
second call performs nothing and leaves the state unchanged, because the
`ENDED` bit is then set. -/
theorem c6_endr_hooks_once_in_order (fatal fatal2 : Int) (s : EmbState)
    (h : endedFlag s = false) :
    (endr fatal s).2 =
      [REvent.R_dot_Last, REvent.R_RunExitFinalizers, REvent.Rf_KillAllDevices,
       REvent.R_CleanTempDir, REvent.R_gc, REvent.Rf_endEmbeddedR fatal] ∧
    endedFlag (endr fatal s).1 = true ∧
    (endr fatal2 (endr fatal s).1).2 = [] ∧
    (endr fatal2 (endr fatal s).1).1 = (endr fatal s).1 := by
  have hE : endedFlag (endr fatal s).1 = true := endedFlag_endr fatal s h
  refine ⟨?_, hE, ?_, ?_⟩
  · rw [endr_runs fatal s h]
  · rw [endr_noop_when_ended fatal2 _ hE]
  · rw [endr_noop_when_ended fatal2 _ hE]

/-- Witness for C6 at an initialized state. -/
theorem c6_endr_hooks_once_in_order_witness :
    (endr 2 { rpy2_embeddedR_isinitialized := 1, options := [] }).2 =
      [REvent.R_dot_Last, REvent.R_RunExitFinalizers, REvent.Rf_KillAllDevices,
       REvent.R_CleanTempDir, REvent.R_gc, REvent.Rf_endEmbeddedR 2] ∧
    endedFlag (endr 2 { rpy2_embeddedR_isinitialized := 1, options := [] }).1 = true ∧
    (endr 0 (endr 2 { rpy2_embeddedR_isinitialized := 1, options := [] }).1).2 = [] ∧
    (endr 0 (endr 2 { rpy2_embeddedR_isinitialized := 1, options := [] }).1).1 =
      (endr 2 { rpy2_embeddedR_isinitialized := 1, options := [] }).1 :=
  c6_endr_hooks_once_in_order 2 0 _ (by decide)

/-- C7: `isready()` is true iff the status word is exactly `INITIALIZED` (no
`BUSY` or `ENDED` bits overlaid); it is false in the fresh state, true
immediately after a successful `_initr`, and false after `endr` from any
state whatsoever. -/
theorem c7_isready_iff (s : EmbState) :
    (isready s = true ↔ s.rpy2_embeddedR_isinitialized = RPY_R_Status.INITIALIZED) ∧
    isready initialEmbState = false ∧
    (∀ (w : Bool) (st : Int), isinitialized s = false →
       isready (_initr true w st s).2.1 = true) ∧
    (∀ fatal : Int, isready (endr fatal s).1 = false) := by
  refine ⟨by simp [isready], by decide, ?_, ?_⟩
  · intro w st h
    simp [_initr, h, isready, setinitialized]
  · intro fatal
    by_cases h : endedFlag s = true
    · rw [endr_noop_when_ended fatal s h]
      have h4 : s.rpy2_embeddedR_isinitialized &&& 4 ≠ 0 := by
        simpa [endedFlag, RPY_R_Status.ENDED] using h
      simp only [isready, RPY_R_Status.INITIALIZED, beq_eq_false_iff_ne, ne_eq]
      intro hc
      rw [hc] at h4
      exact h4 (by decide)
    · have hf : endedFlag s = false := by simpa using h
      rw [endr_runs fatal s hf]
      have h0 : s.rpy2_embeddedR_isinitialized &&& 4 = 0 := by
        simpa [endedFlag, RPY_R_Status.ENDED] using hf
      simp only [isready, RPY_R_Status.INITIALIZED, RPY_R_Status.ENDED,
        beq_eq_false_iff_ne, ne_eq]
      intro hc
      have hand := congrArg (fun y => y &&& 4) hc
      simp [Nat.and_xor_distrib_right, h0] at hand

/-- Witness for C7 at concrete states. -/
theorem c7_isready_iff_witness :
    isready (_initr true true 0 initialEmbState).2.1 = true ∧
    isready (endr 0 { rpy2_embeddedR_isinitialized := 1, options := [] }).1 = false :=
  ⟨(c7_isready_iff initialEmbState).2.2.1 true 0 (by decide),
   (c7_isready_iff { rpy2_embeddedR_isinitialized := 1, options := [] }).2.2.2 0⟩

/-- C8: binding a callback slot whose `CALLBACK_INIT_PAIRS` entry is the
leave-default marker `None` installs the `ffi.NULL` sentinel into that native
slot, never a caller-supplied implementation; and in the static 11-entry table
exactly the plain `ptr_R_WriteConsole` slot carries that marker. -/
theorem c8_default_marker_installs_null :
    (∀ (rlib cbs : String → CbVal) (pr : String × Option String),
       pr ∈ CALLBACK_INIT_PAIRS → pr.2 = none →
       _setcallback rlib pr.1 cbs pr.2 pr.1 = CbVal.NULL ∧
       ∀ sym, _setcallback rlib pr.1 cbs pr.2 pr.1 ≠ CbVal.impl sym) ∧
    CALLBACK_INIT_PAIRS.filter (fun pr => pr.2.isNone) =
      [("ptr_R_WriteConsole", none)] := by
  constructor
  · intro rlib cbs pr hmem hnone
    constructor
    · simp [_setcallback, hnone]
    · intro sym
      simp [_setcallback, hnone]
  · decide

/-- Witness for C8 at the `ptr_R_WriteConsole` slot. -/
theorem c8_default_marker_installs_null_witness :
    ("ptr_R_WriteConsole", (none : Option String)) ∈ CALLBACK_INIT_PAIRS ∧
    _setcallback (fun _ => CbVal.impl "old") "ptr_R_WriteConsole"
      (fun sym => CbVal.impl sym) none "ptr_R_WriteConsole" = CbVal.NULL :=
  ⟨by decide,
   (c8_default_marker_installs_null.1 (fun _ => CbVal.impl "old")
     (fun sym => CbVal.impl sym) ("ptr_R_WriteConsole", none) (by decide) rfl).1⟩

end Rpy2Embedded

namespace Rpy2Embedded

theorem map_update_of_not_mem (d : List (String × PyVal)) (a : String) (v : PyVal)
    (h : d.any (fun p => p.1 = a) = false) :
    d.map (fun p => if p.1 = a then (a, v) else p) = d := by
  induction d with
  | nil => rfl
  | cons q rest ih =>
    rw [List.any_cons, Bool.or_eq_false_iff] at h
    have hq : ¬ q.1 = a := of_decide_eq_false h.1
    rw [List.map_cons, if_neg hq, ih h.2]

theorem dictGet?_cons_pos (q : String × PyVal) (rest : List (String × PyVal))
    (k : String) (h : q.1 = k) : dictGet? (q :: rest) k = some q.2 := by
  unfold dictGet?
  rw [List.find?_cons_of_pos rest (by simpa using h)]
  rfl

theorem dictGet?_cons_neg (q : String × PyVal) (rest : List (String × PyVal))
    (k : String) (h : ¬ q.1 = k) : dictGet? (q :: rest) k = dictGet? rest k := by
  unfold dictGet?
  rw [List.find?_cons_of_neg rest (by simpa using h)]

theorem dictGet?_map_update (d : List (String × PyVal)) (a k : String) (v : PyVal)
    (h : d.any (fun p => p.1 = a) = true) :
    dictGet? (d.map (fun p => if p.1 = a then (a, v) else p)) k =
      if a = k then some v else dictGet? d k := by
  induction d with
  | nil => simp at h
  | cons q rest ih =>
    by_cases hq : q.1 = a
    · rw [List.map_cons, if_pos hq]
      by_cases hak : a = k
      · rw [if_pos hak, dictGet?_cons_pos (a, v) _ k hak]
      · rw [if_neg hak, dictGet?_cons_neg (a, v) _ k hak,
          dictGet?_cons_neg q rest k (fun hc => hak (hq.symm.trans hc))]
        by_cases hrest : rest.any (fun p => p.1 = a) = true
        · rw [ih hrest, if_neg hak]
        · rw [map_update_of_not_mem rest a v (Bool.eq_false_iff.mpr hrest)]
    · have hrest : rest.any (fun p => p.1 = a) = true := by
        rw [List.any_cons] at h
        rcases Bool.or_eq_true_iff.mp h with hh | hh
        · exact absurd (of_decide_eq_true hh) hq
        · exact hh
      rw [List.map_cons, if_neg hq]
      by_cases hqk : q.1 = k
      · have hak : ¬ a = k := fun hc => hq (hqk.trans hc.symm)
        rw [dictGet?_cons_pos q _ k hqk, dictGet?_cons_pos q rest k hqk, if_neg hak]
      · rw [dictGet?_cons_neg q _ k hqk, dictGet?_cons_neg q rest k hqk, ih hrest]

theorem dictGet?_none_of_absent (d : List (String × PyVal)) (a : String)
    (h : d.any (fun p => p.1 = a) = false) :
    dictGet? d a = none := by
  induction d with
  | nil => rfl
  | cons q rest ih =>
    rw [List.any_cons, Bool.or_eq_false_iff] at h
    have hq : ¬ q.1 = a := of_decide_eq_false h.1
    rw [dictGet?_cons_neg q rest a hq]
    exact ih h.2

theorem dictGet?_append_single (d : List (String × PyVal)) (a k : String) (v : PyVal) :
    dictGet? (d ++ [(a, v)]) k =
      match dictGet? d k with
      | some w => some w
      | none => if a = k then some v else none := by
  induction d with
  | nil =>
    by_cases h : a = k
    · rw [List.nil_append, dictGet?_cons_pos (a, v) [] k h]
      simp [dictGet?, h]
    · rw [List.nil_append, dictGet?_cons_neg (a, v) [] k h]
      simp [dictGet?, h]
  | cons q rest ih =>
    by_cases hq : q.1 = k
    · rw [List.cons_append, dictGet?_cons_pos q _ k hq, dictGet?_cons_pos q rest k hq]
    · rw [List.cons_append, dictGet?_cons_neg q _ k hq, dictGet?_cons_neg q rest k hq, ih]

theorem dictGet?_dictSet (d : List (String × PyVal)) (a k : String) (v : PyVal) :
    dictGet? (dictSet d a v) k = if a = k then some v else dictGet? d k := by
  unfold dictSet
  by_cases h : d.any (fun p => p.1 = a) = true
  · rw [if_pos h]
    exact dictGet?_map_update d a k v h
  · rw [if_neg h, dictGet?_append_single]
    by_cases hak : a = k
    · subst hak
      rw [dictGet?_none_of_absent d a (Bool.eq_false_iff.mpr h)]
    · cases hd : dictGet? d k <;> simp [hak, hd]

end Rpy2Embedded

namespace Rpy2Embedded

theorem sessionLoop_all_wf (items : List String) (kv : Option (String × String))
    (res : List (String × PyVal)) (ws : List String)
    (h : ∀ item ∈ items, (splitEq1 item).isSome = true) :
    sessionLoop items kv res ws =
      .ok { mapping := (items.filterMap splitEq1).foldl
              (fun r p => dictSet r p.1 (PyVal.str p.2)) res,
            warned := ws } := by
  induction items generalizing kv res with
  | nil => rfl
  | cons item rest ih =>
    have hs : (splitEq1 item).isSome = true := h item (List.mem_cons_self _ _)
    rcases Option.isSome_iff_exists.mp hs with ⟨p, hp⟩
    simp only [sessionLoop, hp, List.filterMap_cons, List.foldl_cons]
    exact ih (some p) (dictSet res p.1 (PyVal.str p.2))
      (fun item2 h2 => h item2 (List.mem_cons_of_mem _ h2))

theorem dictGet?_foldl (ps : List (String × String)) (res : List (String × PyVal))
    (k : String) :
    dictGet? (ps.foldl (fun r p => dictSet r p.1 (PyVal.str p.2)) res) k =
      match ps.reverse.find? (fun p => p.1 = k) with
      | some p => some (PyVal.str p.2)
      | none => dictGet? res k := by
  induction ps generalizing res with
  | nil => rfl
  | cons p rest ih =>
    rw [List.foldl_cons, ih, List.reverse_cons, List.find?_append]
    cases hf : rest.reverse.find? (fun q => q.1 = k) with
    | some q => simp [Option.or]
    | none =>
      simp only [Option.or]
      by_cases hpk : p.1 = k
      · rw [dictGet?_dictSet, if_pos hpk]
        rw [List.find?_cons_of_pos [] (by simpa using hpk)]
      · rw [dictGet?_dictSet, if_neg hpk]
        rw [List.find?_cons_of_neg [] (by simpa using hpk)]
        rfl

end Rpy2Embedded

namespace Rpy2Embedded

theorem get_r_session_status_some (pid : Int) (m : String) (hm : ¬ m = "") :
    get_r_session_status pid (some m) =
      sessionLoop (pySplit m ':') none [("current_pid", PyVal.int pid)] [] := by
  simp only [get_r_session_status]
  rw [if_neg hm]

/-- C2 amended: for every marker whose segments are all well-formed and none of
which has key `current_pid`, `is_r_externally_initialized` returns exactly the
string comparison of the current process id with the marker's last `PID`
field, a missing `PID` comparing as `"None"`; a `current_pid` segment in the
marker overrides the process id in the comparison (see the counterexample).
Both concrete examples of the claim still hold. -/
theorem c2_pid_comparison (pid : Int) (m : String)
    (h1 : ∀ item ∈ pySplit m ':', (splitEq1 item).isSome = true)
    (h2 : ∀ p ∈ (pySplit m ':').filterMap splitEq1, p.1 ≠ "current_pid") :
    is_r_externally_initialized pid (some m) =
      .ok (toString pid == optStr (markerFieldSpec m "PID")) := by
  have hm : ¬ m = "" := by
    intro he
    subst he
    exact absurd (h1 "" (by decide)) (by decide)
  have hloop := sessionLoop_all_wf (pySplit m ':') none
    [("current_pid", PyVal.int pid)] [] h1
  have hr : get_r_session_status pid (some m) =
      .ok { mapping := ((pySplit m ':').filterMap splitEq1).foldl
              (fun r p => dictSet r p.1 (PyVal.str p.2))
              [("current_pid", PyVal.int pid)],
            warned := [] } := by
    rw [get_r_session_status_some pid m hm, hloop]
  have hcp : dictGet? (((pySplit m ':').filterMap splitEq1).foldl
      (fun r p => dictSet r p.1 (PyVal.str p.2)) [("current_pid", PyVal.int pid)])
      "current_pid" = some (PyVal.int pid) := by
    rw [dictGet?_foldl]
    have hnone : ((pySplit m ':').filterMap splitEq1).reverse.find?
        (fun p => p.1 = "current_pid") = none := by
      apply List.find?_eq_none.mpr
      intro x hx
      simpa using h2 x (List.mem_reverse.mp hx)
    rw [hnone]
    rfl
  unfold is_r_externally_initialized
  rw [hr]
  dsimp only
  rw [hcp, dictGet?_foldl]
  unfold markerFieldSpec
  cases hf : ((pySplit m ':').filterMap splitEq1).reverse.find?
      (fun p => p.1 = "PID") with
  | none => rfl
  | some q => rfl

end Rpy2Embedded

namespace Rpy2Embedded

/-- C2 counterexample: with current process id 5, the marker
`"current_pid=7:PID=7"` makes `is_r_externally_initialized` return `True`
although the marker's `PID` field (7) differs from the process id (5): the
marker's own `current_pid` segment shadows the process id in the comparison,
so the claimed iff fails. -/
theorem c2_marker_shadows_process_pid :
    is_r_externally_initialized 5 (some "current_pid=7:PID=7") = .ok true := by
  decide

/-- Witness for C2 at pid 5 with the claim's two concrete markers. -/
theorem c2_pid_comparison_witness :
    is_r_externally_initialized 5 (some "PID=7") = .ok false ∧
    is_r_externally_initialized 5 (some "current_pid=5:PID=5") = .ok true := by
  constructor
  · rw [c2_pid_comparison 5 "PID=7" (by decide) (by decide)]
    decide
  · decide

end Rpy2Embedded
